import Mathlib

/-!
Shallow embedding of the computational core of `src/app.py` — the function
`calculate_gas_cycle`, a closed-form Brayton-cycle evaluator — together with
proofs of the specification's claims about it.

Python floats are idealised as real numbers `ℝ`.  Python's `**` on floats is
modelled case by case, following CPython semantics: a positive base gives the
real power; a zero base gives `0`, `1`, or a `ZeroDivisionError` depending on
the sign of the exponent; a negative base gives the real power for an
integral exponent and otherwise a complex principal-branch power, whose
complex value makes the later comparison `q_in > 0` raise a `TypeError`.
Fallible arithmetic is returned through `Except`.  The source's default
arguments `k=1.4`, `cp=1.005` are passed explicitly by every caller modelled
here, so the parameters are plain.
-/

/-- Errors CPython can raise while evaluating the arithmetic in
`calculate_gas_cycle`: float division by zero (also raised by
`0.0 ** negative`), and the `TypeError` raised when an order comparison
receives a complex number. -/
inductive PyErr where
  | zeroDivisionError
  | typeError

/-- A numeric value flowing through the Python expression: a float
(idealised as a real number) or a complex number (produced by `**` on a
negative base with a non-integral exponent). -/
inductive PyVal where
  | real : ℝ → PyVal
  | complex : ℂ → PyVal

open Classical in
/-- CPython `**` on floats (`b ** e`).  Positive base: real power.  Zero
base: `1` for zero exponent, `0` for positive, `ZeroDivisionError` for
negative.  Negative base: real power when the exponent is an integral value
(`Real.rpow` agrees with CPython there), otherwise the principal-branch
complex power. -/
noncomputable def pyPow (b e : ℝ) : Except PyErr PyVal :=
  if 0 < b then .ok (.real (b ^ e))
  else if b = 0 then
    if 0 < e then .ok (.real 0)
    else if e = 0 then .ok (.real 1)
    else .error .zeroDivisionError
  else if ∃ n : ℤ, e = (n : ℝ) then .ok (.real (b ^ e))
  else .ok (.complex ((b : ℂ) ^ (e : ℂ)))

/-- Python `*` on the values that can appear here; a complex operand makes
the result complex. -/
noncomputable def pyMul : PyVal → PyVal → PyVal
  | .real a, .real b => .real (a * b)
  | .real a, .complex b => .complex ((a : ℂ) * b)
  | .complex a, .real b => .complex (a * (b : ℂ))
  | .complex a, .complex b => .complex (a * b)

/-- Python `-` on the values that can appear here. -/
noncomputable def pySub : PyVal → PyVal → PyVal
  | .real a, .real b => .real (a - b)
  | .real a, .complex b => .complex ((a : ℂ) - b)
  | .complex a, .real b => .complex (a - (b : ℂ))
  | .complex a, .complex b => .complex (a - b)

/-- Python `/`: raises `ZeroDivisionError` on a zero divisor (float or
complex), otherwise divides. -/
noncomputable def pyDiv (a b : PyVal) : Except PyErr PyVal :=
  match a, b with
  | .real x, .real y =>
      if y = 0 then .error .zeroDivisionError else .ok (.real (x / y))
  | .real x, .complex y =>
      if y = 0 then .error .zeroDivisionError else .ok (.complex ((x : ℂ) / y))
  | .complex x, .real y =>
      if y = 0 then .error .zeroDivisionError else .ok (.complex (x / (y : ℂ)))
  | .complex x, .complex y =>
      if y = 0 then .error .zeroDivisionError else .ok (.complex (x / y))

/-- Python comparison `v > 0`: defined on floats, raises `TypeError` on a
complex value. -/
noncomputable def pyGtZero : PyVal → Except PyErr Bool
  | .real a => .ok (decide (0 < a))
  | .complex _ => .error .typeError

/-- The core of `src/app.py`, translated line by line:

```
def calculate_gas_cycle(p_ratio, t_max, t_amb, k=1.4, cp=1.005):
    t2 = t_amb * (p_ratio**((k-1)/k))
    w_c = cp * (t2 - t_amb)
    t4 = t_max / (p_ratio**((k-1)/k))
    w_t = cp * (t_max - t4)
    w_net = w_t - w_c
    q_in = cp * (t_max - t2)
    eff = (w_net / q_in) * 100 if q_in > 0 else 0
    return w_net, eff, t2, t4
```

The leading `k = 0` test models Python's `ZeroDivisionError` from the inline
exponent expression `(k-1)/k`; each possible exception surfaces as
`Except.error`, aborting the call exactly where CPython would raise. -/
noncomputable def calculate_gas_cycle (p_ratio t_max t_amb k cp : ℝ) :
    Except PyErr (PyVal × PyVal × PyVal × PyVal) :=
  if k = 0 then .error .zeroDivisionError
  else
    match pyPow p_ratio ((k - 1) / k) with
    | .error err => .error err
    | .ok c2 =>
      let t2 := pyMul (.real t_amb) c2
      let w_c := pyMul (.real cp) (pySub t2 (.real t_amb))
      match pyPow p_ratio ((k - 1) / k) with
      | .error err => .error err
      | .ok c4 =>
        match pyDiv (.real t_max) c4 with
        | .error err => .error err
        | .ok t4 =>
          let w_t := pyMul (.real cp) (pySub (.real t_max) t4)
          let w_net := pySub w_t w_c
          let q_in := pyMul (.real cp) (pySub (.real t_max) t2)
          match pyGtZero q_in with
          | .error err => .error err
          | .ok pos =>
            if pos then
              match pyDiv w_net q_in with
              | .error err => .error err
              | .ok r => .ok (w_net, pyMul r (.real 100), t2, t4)
            else .ok (w_net, .real 0, t2, t4)

/-- Modelled from the spec: the CycleEvaluator algorithm of §4.1, steps 1–9,
written exactly as the spec states it (real arithmetic, efficiency forced to
0 when the heat input is not positive, result tuple
`(net_work, efficiency_percent, t2, t4)`).  This is the refinement target
that `calculate_gas_cycle` is compared against. -/
noncomputable def evaluate_spec (pressure_ratio turbine_inlet_temp ambient_temp k cp : ℝ) :
    ℝ × ℝ × ℝ × ℝ :=
  let exponent := (k - 1) / k
  let t2 := ambient_temp * pressure_ratio ^ exponent
  let compressor_work := cp * (t2 - ambient_temp)
  let t4 := turbine_inlet_temp / pressure_ratio ^ exponent
  let turbine_work := cp * (turbine_inlet_temp - t4)
  let net_work := turbine_work - compressor_work
  let heat_in := cp * (turbine_inlet_temp - t2)
  let efficiency_percent := if 0 < heat_in then (net_work / heat_in) * 100 else 0
  (net_work, efficiency_percent, t2, t4)

/-- The isentropic temperature-ratio factor `12 ** ((1.4 - 1) / 1.4)` of the
spec's concrete scenario 1 (the dashboard's default inputs). -/
noncomputable def scenario1_c : ℝ := (12:ℝ) ^ (((1.4:ℝ) - 1) / 1.4)

/-- Scenario 1: the compressor exit temperature the source computes. -/
noncomputable def scenario1_t2 : ℝ := 298 * scenario1_c

/-- Scenario 1: the turbine exit temperature the source computes. -/
noncomputable def scenario1_t4 : ℝ := 1350 / scenario1_c

/-- Scenario 1: the net specific work the source computes. -/
noncomputable def scenario1_wnet : ℝ :=
  1.005 * (1350 - scenario1_t4) - 1.005 * (scenario1_t2 - 298)

/-- Scenario 1: the thermal efficiency (percent) the source computes. -/
noncomputable def scenario1_eff : ℝ :=
  scenario1_wnet / (1.005 * (1350 - scenario1_t2)) * 100

/-- Normal form of a successful call with a positive pressure ratio: for
`0 < p_ratio` and `k ≠ 0` the call always succeeds, and every component is
the corresponding real-power formula from the source. -/
theorem calculate_gas_cycle_pos_eq (p tmax tamb k cp : ℝ) (hp : 0 < p) (hk : k ≠ 0) :
    calculate_gas_cycle p tmax tamb k cp =
      .ok (.real (cp * (tmax - tmax / p ^ ((k - 1) / k)) - cp * (tamb * p ^ ((k - 1) / k) - tamb)),
           .real (if 0 < cp * (tmax - tamb * p ^ ((k - 1) / k)) then
                    ((cp * (tmax - tmax / p ^ ((k - 1) / k)) - cp * (tamb * p ^ ((k - 1) / k) - tamb)) /
                      (cp * (tmax - tamb * p ^ ((k - 1) / k)))) * 100
                  else 0),
           .real (tamb * p ^ ((k - 1) / k)),
           .real (tmax / p ^ ((k - 1) / k))) := by
  have hc : (0:ℝ) < p ^ ((k - 1) / k) := Real.rpow_pos_of_pos hp _
  by_cases hq : 0 < cp * (tmax - tamb * p ^ ((k - 1) / k))
  · simp [calculate_gas_cycle, pyPow, pyMul, pySub, pyDiv, pyGtZero,
      hp, hk, hc.ne', hq, hq.ne']
  · simp [calculate_gas_cycle, pyPow, pyMul, pySub, pyDiv, pyGtZero,
      hp, hk, hc.ne', hq]

/-- Any successful call, whatever the sign of the pressure ratio, returns
exactly the real-power formulas of the source: the complex path aborts at
the comparison `q_in > 0`, the zero-base path aborts dividing by
`0 ** exponent = 0` (unless the exponent is itself `0`), so a returned tuple
always has the `Real.rpow` shape. -/
theorem calculate_gas_cycle_ok_shape (p tmax tamb k cp : ℝ)
    (out : PyVal × PyVal × PyVal × PyVal)
    (h : calculate_gas_cycle p tmax tamb k cp = .ok out) :
    out = (.real (cp * (tmax - tmax / p ^ ((k - 1) / k)) - cp * (tamb * p ^ ((k - 1) / k) - tamb)),
           .real (if 0 < cp * (tmax - tamb * p ^ ((k - 1) / k)) then
                    ((cp * (tmax - tmax / p ^ ((k - 1) / k)) - cp * (tamb * p ^ ((k - 1) / k) - tamb)) /
                      (cp * (tmax - tamb * p ^ ((k - 1) / k)))) * 100
                  else 0),
           .real (tamb * p ^ ((k - 1) / k)),
           .real (tmax / p ^ ((k - 1) / k))) := by
  by_cases hk : k = 0
  · simp [calculate_gas_cycle, hk] at h
  · rcases lt_trichotomy 0 p with hp | hp | hp
    · rw [calculate_gas_cycle_pos_eq p tmax tamb k cp hp hk] at h
      exact (Except.ok.inj h).symm
    · subst hp
      by_cases he : 0 < (k - 1) / k
      · simp [calculate_gas_cycle, pyPow, pyMul, pySub, pyDiv, hk, he, lt_irrefl] at h
      · by_cases he0 : (k - 1) / k = 0
        · by_cases hq : 0 < cp * (tmax - tamb)
          · have hcp : ¬(cp = 0 ∨ tmax - tamb = 0) := by
              rintro (h1 | h1) <;> simp [h1] at hq
            simp [calculate_gas_cycle, pyPow, pyMul, pySub, pyDiv, pyGtZero,
              hk, he, he0, hq, hcp, lt_irrefl, one_ne_zero] at h
            simp [he0, Real.rpow_zero, hq, hq.ne', ← h]
          · simp [calculate_gas_cycle, pyPow, pyMul, pySub, pyDiv, pyGtZero,
              hk, he, he0, hq, lt_irrefl, one_ne_zero] at h
            simp [he0, Real.rpow_zero, hq, ← h]
        · simp [calculate_gas_cycle, pyPow, pyMul, pySub, pyDiv, hk, he, he0,
            lt_irrefl] at h
    · by_cases hint : ∃ n : ℤ, (k - 1) / k = (n : ℝ)
      · by_cases hz : p ^ ((k - 1) / k) = 0
        · simp [calculate_gas_cycle, pyPow, pyMul, pySub, pyDiv, pyGtZero,
            hk, hp.not_lt, hp.ne, hint, hz] at h
        · by_cases hq : 0 < cp * (tmax - tamb * p ^ ((k - 1) / k))
          · simp [calculate_gas_cycle, pyPow, pyMul, pySub, pyDiv, pyGtZero,
              hk, hp.not_lt, hp.ne, hint, hz, hq, hq.ne'] at h
            simp [hq, hq.ne', ← h]
          · simp [calculate_gas_cycle, pyPow, pyMul, pySub, pyDiv, pyGtZero,
              hk, hp.not_lt, hp.ne, hint, hz, hq] at h
            simp [hq, ← h]
      · by_cases hz : ((p : ℂ) ^ (((k - 1) / k : ℝ) : ℂ)) = 0
        · simp [calculate_gas_cycle, pyPow, pyMul, pySub, pyDiv, pyGtZero,
            hk, hp.not_lt, hp.ne, hint, hz] at h
        · simp [calculate_gas_cycle, pyPow, pyMul, pySub, pyDiv, pyGtZero,
            hk, hp.not_lt, hp.ne, hint, hz] at h

/-- `4 ^ (1/2) = 2` over the reals (used to evaluate witnesses with `k = 2`,
whose exponent is `1/2`). -/
theorem rpow_four_half : (4:ℝ) ^ ((1:ℝ)/2) = 2 := by
  have h4 : (4:ℝ) = 2 ^ (2:ℕ) := by norm_num
  rw [h4, ← Real.rpow_natCast 2 2, ← Real.rpow_mul (by norm_num : (0:ℝ) ≤ 2)]
  norm_num [Real.rpow_one]

/-- C1: on every input on which it does not fail, `calculate_gas_cycle`
computes exactly the spec's CycleEvaluator algorithm — `exponent = (k-1)/k`,
`t2 = ambient_temp * pressure_ratio^exponent`, compressor work, `t4 =
turbine_inlet_temp / pressure_ratio^exponent`, turbine work, net work, heat
input, efficiency `(net_work/heat_in)*100` guarded to `0` when the heat
input is not positive — and returns `(net_work, efficiency_percent, t2, t4)`
in that order. -/
theorem evaluate_matches_spec (p tmax tamb k cp : ℝ)
    (out : PyVal × PyVal × PyVal × PyVal)
    (h : calculate_gas_cycle p tmax tamb k cp = .ok out) :
    out = (.real (evaluate_spec p tmax tamb k cp).1,
           .real (evaluate_spec p tmax tamb k cp).2.1,
           .real (evaluate_spec p tmax tamb k cp).2.2.1,
           .real (evaluate_spec p tmax tamb k cp).2.2.2) := by
  rw [calculate_gas_cycle_ok_shape p tmax tamb k cp out h]
  simp only [evaluate_spec]

/-- Witness for C1: the concrete successful call
`calculate_gas_cycle 1 2 1 2 1` returns `(0, 0, 1, 2)`, which is exactly the
spec formula's value there. -/
theorem evaluate_matches_spec_witness :
    calculate_gas_cycle 1 2 1 2 1 = .ok (.real 0, .real 0, .real 1, .real 2) ∧
    ((PyVal.real 0, PyVal.real 0, PyVal.real 1, PyVal.real 2) :
        PyVal × PyVal × PyVal × PyVal) =
      (.real (evaluate_spec 1 2 1 2 1).1, .real (evaluate_spec 1 2 1 2 1).2.1,
       .real (evaluate_spec 1 2 1 2 1).2.2.1, .real (evaluate_spec 1 2 1 2 1).2.2.2) := by
  have h : calculate_gas_cycle 1 2 1 2 1 = .ok (.real 0, .real 0, .real 1, .real 2) := by
    rw [calculate_gas_cycle_pos_eq 1 2 1 2 1 one_pos (by norm_num)]
    norm_num [Real.one_rpow]
  exact ⟨h, evaluate_matches_spec 1 2 1 2 1 _ h⟩

/-- C2: whenever the call returns rather than raising, if the computed heat
input `cp * (t_max - t2)` is not positive then the returned efficiency is
exactly the sentinel `0`; the division `w_net / q_in` is guarded by the
comparison, so no division error can arise in that case. -/
theorem nonpositive_heat_input_eff_zero (p tmax tamb k cp : ℝ)
    (w e : PyVal) (r2 r4 : ℝ)
    (h : calculate_gas_cycle p tmax tamb k cp = .ok (w, e, .real r2, .real r4))
    (hq : cp * (tmax - r2) ≤ 0) : e = .real 0 := by
  have hs := calculate_gas_cycle_ok_shape p tmax tamb k cp _ h
  simp only [Prod.mk.injEq, PyVal.real.injEq] at hs
  obtain ⟨hw, heq, h2, h4⟩ := hs
  rw [h2] at hq
  rw [if_neg (not_lt.mpr hq)] at heq
  exact heq

/-- Witness for C2: at `(p, t_max, t_amb, k, cp) = (4, 2, 2, 2, 1)` the call
returns with `t2 = 4 ≥ t_max = 2`, the heat input `1 * (2 - 4)` is negative,
and the returned efficiency is exactly `0`. -/
theorem nonpositive_heat_input_eff_zero_witness :
    calculate_gas_cycle 4 2 2 2 1 = .ok (.real (-1), .real 0, .real 4, .real 1) ∧
    (1:ℝ) * (2 - 4) ≤ 0 ∧ (PyVal.real 0 : PyVal) = .real 0 := by
  have hc : (4:ℝ) ^ (((2:ℝ) - 1)/2) = 2 := by
    rw [show ((2:ℝ) - 1)/2 = (1:ℝ)/2 by norm_num]; exact rpow_four_half
  have h : calculate_gas_cycle 4 2 2 2 1 = .ok (.real (-1), .real 0, .real 4, .real 1) := by
    rw [calculate_gas_cycle_pos_eq 4 2 2 2 1 (by norm_num) (by norm_num), hc]
    norm_num
  exact ⟨h, by norm_num,
    nonpositive_heat_input_eff_zero 4 2 2 2 1 _ _ 4 1 h (by norm_num)⟩

/-- C8: determinism and purity — the source function reads and writes no
nonlocal state, so its embedding is a function of its five arguments alone,
and two calls on identical argument values return identical results. -/
theorem deterministic_pure (p tmax tamb k cp q tmax2 tamb2 k2 cp2 : ℝ)
    (h1 : p = q) (h2 : tmax = tmax2) (h3 : tamb = tamb2) (h4 : k = k2) (h5 : cp = cp2) :
    calculate_gas_cycle p tmax tamb k cp = calculate_gas_cycle q tmax2 tamb2 k2 cp2 := by
  rw [h1, h2, h3, h4, h5]

/-- Witness for C8 at the dashboard's default inputs. -/
theorem deterministic_pure_witness :
    calculate_gas_cycle 12 1350 298 1.4 1.005 = calculate_gas_cycle 12 1350 298 1.4 1.005 :=
  deterministic_pure 12 1350 298 1.4 1.005 12 1350 298 1.4 1.005 rfl rfl rfl rfl rfl

/-- C3: for pressure ratio > 1, k > 1 and t_max > t_amb > 0, the call
succeeds, the compressor exit temperature it returns is strictly above the
ambient temperature, and the turbine exit temperature is strictly below the
turbine inlet temperature. -/
theorem compression_heats_expansion_cools (p tmax tamb k cp : ℝ)
    (hp : 1 < p) (hk : 1 < k) (ht : tamb < tmax) (h0 : 0 < tamb) :
    ∃ w e, calculate_gas_cycle p tmax tamb k cp =
        .ok (w, e, .real (tamb * p ^ ((k - 1) / k)), .real (tmax / p ^ ((k - 1) / k))) ∧
      tamb < tamb * p ^ ((k - 1) / k) ∧ tmax / p ^ ((k - 1) / k) < tmax := by
  have hp0 : (0:ℝ) < p := lt_trans zero_lt_one hp
  have hk0 : k ≠ 0 := (lt_trans zero_lt_one hk).ne'
  have he : 0 < (k - 1) / k := div_pos (by linarith) (by linarith)
  have hc : 1 < p ^ ((k - 1) / k) :=
    (Real.one_lt_rpow_iff_of_pos hp0).mpr (Or.inl ⟨hp, he⟩)
  refine ⟨_, _, calculate_gas_cycle_pos_eq p tmax tamb k cp hp0 hk0, ?_, ?_⟩
  · nlinarith
  · exact div_lt_self (lt_trans h0 ht) hc

/-- Witness for C3 at `(p, t_max, t_amb, k, cp) = (2, 2, 1, 2, 1)`. -/
theorem compression_heats_expansion_cools_witness :
    (1:ℝ) < 2 ∧ (1:ℝ) < 2 ∧ (1:ℝ) < 2 ∧ (0:ℝ) < 1 ∧
    (∃ w e, calculate_gas_cycle 2 2 1 2 1 =
        .ok (w, e, .real (1 * (2:ℝ) ^ (((2:ℝ) - 1) / 2)), .real (2 / (2:ℝ) ^ (((2:ℝ) - 1) / 2))) ∧
      1 < 1 * (2:ℝ) ^ (((2:ℝ) - 1) / 2) ∧ 2 / (2:ℝ) ^ (((2:ℝ) - 1) / 2) < 2) :=
  ⟨by norm_num, by norm_num, by norm_num, by norm_num,
    compression_heats_expansion_cools 2 2 1 2 1 (by norm_num) (by norm_num)
      (by norm_num) (by norm_num)⟩

/-- C6: at pressure ratio 1 (with k > 1 and positive temperatures) the
powers are all 1, so the call returns t2 equal to the ambient temperature,
t4 equal to the turbine inlet temperature, a compressor work of 0, and the
net work equal to the turbine work. -/
theorem pressure_ratio_one_boundary (tmax tamb k cp : ℝ)
    (hk : 1 < k) (_h0 : 0 < tamb) (_h1 : 0 < tmax) :
    ∃ wnet e, calculate_gas_cycle 1 tmax tamb k cp = .ok (.real wnet, e, .real tamb, .real tmax) ∧
      cp * (tamb - tamb) = 0 ∧ wnet = cp * (tmax - tmax) - cp * (tamb - tamb) ∧
      wnet = cp * (tmax - tmax) := by
  have hk0 : k ≠ 0 := (lt_trans zero_lt_one hk).ne'
  have h := calculate_gas_cycle_pos_eq 1 tmax tamb k cp one_pos hk0
  rw [Real.one_rpow] at h
  simp at h
  exact ⟨0, .real 0, h, by ring, by ring, by ring⟩

/-- Witness for C6 at `(t_max, t_amb, k, cp) = (2, 1, 2, 3)`. -/
theorem pressure_ratio_one_boundary_witness :
    (1:ℝ) < 2 ∧ (0:ℝ) < 1 ∧ (0:ℝ) < 2 ∧
    (∃ wnet e, calculate_gas_cycle 1 2 1 2 3 = .ok (.real wnet, e, .real 1, .real 2) ∧
      (3:ℝ) * (1 - 1) = 0 ∧ wnet = 3 * ((2:ℝ) - 2) - 3 * ((1:ℝ) - 1) ∧
      wnet = 3 * ((2:ℝ) - 2)) :=
  ⟨by norm_num, by norm_num, by norm_num,
    pressure_ratio_one_boundary 2 1 2 3 (by norm_num) (by norm_num) (by norm_num)⟩

/-- C9: whenever the heat input is positive (and p > 1, k > 1), the
efficiency the source returns reduces algebraically to
`(1 - p ^ (-(k-1)/k)) * 100`; in particular it depends only on the pressure
ratio and k, not on t_max, t_amb or cp. -/
theorem efficiency_closed_form (p tmax tamb k cp : ℝ)
    (hp : 1 < p) (hk : 1 < k)
    (hq : 0 < cp * (tmax - tamb * p ^ ((k - 1) / k))) :
    ∃ w t2 t4, calculate_gas_cycle p tmax tamb k cp =
      .ok (.real w, .real ((1 - p ^ (-((k - 1) / k))) * 100), .real t2, .real t4) := by
  have hp0 : (0:ℝ) < p := lt_trans zero_lt_one hp
  have hk0 : k ≠ 0 := (lt_trans zero_lt_one hk).ne'
  have hc : (0:ℝ) < p ^ ((k - 1) / k) := Real.rpow_pos_of_pos hp0 _
  have h := calculate_gas_cycle_pos_eq p tmax tamb k cp hp0 hk0
  rw [if_pos hq] at h
  have hrw : (cp * (tmax - tmax / p ^ ((k - 1) / k)) - cp * (tamb * p ^ ((k - 1) / k) - tamb)) /
      (cp * (tmax - tamb * p ^ ((k - 1) / k))) = 1 - p ^ (-((k - 1) / k)) := by
    rw [Real.rpow_neg hp0.le, div_eq_iff hq.ne']
    field_simp
    ring
  rw [hrw] at h
  exact ⟨_, _, _, h⟩

/-- Witness for C9 at `(p, t_max, t_amb, k, cp) = (4, 4, 1, 2, 1)`, where
the exponent is 1/2, the power is 2 and the heat input is `4 - 2 > 0`. -/
theorem efficiency_closed_form_witness :
    (1:ℝ) < 4 ∧ (1:ℝ) < 2 ∧ (0:ℝ) < 1 * (4 - 1 * (4:ℝ) ^ (((2:ℝ) - 1) / 2)) ∧
    (∃ w t2 t4, calculate_gas_cycle 4 4 1 2 1 =
      .ok (.real w, .real ((1 - (4:ℝ) ^ (-(((2:ℝ) - 1) / 2))) * 100), .real t2, .real t4)) := by
  have hc : (4:ℝ) ^ (((2:ℝ) - 1) / 2) = 2 := by
    rw [show ((2:ℝ) - 1) / 2 = (1:ℝ) / 2 by norm_num]; exact rpow_four_half
  refine ⟨by norm_num, by norm_num, by rw [hc]; norm_num,
    efficiency_closed_form 4 4 1 2 1 (by norm_num) (by norm_num) (by rw [hc]; norm_num)⟩

/-- C4: with `pressure_ratio = -5` and `k = 1.4` the exponent `2/7` is not
an integer, so CPython's `**` produces a complex number; the complex value
reaches the comparison `q_in > 0`, which raises, so the call fails instead
of returning a silently wrong numeric value — for every choice of the
remaining parameters. -/
theorem negative_pressure_ratio_raises (tmax tamb cp : ℝ) :
    calculate_gas_cycle (-5) tmax tamb 1.4 cp = .error PyErr.typeError := by
  have hnotint : ¬∃ n : ℤ, ((1.4:ℝ) - 1) / 1.4 = (n : ℝ) := by
    rw [show ((1.4:ℝ) - 1) / 1.4 = 2 / 7 by norm_num]
    rintro ⟨n, hn⟩
    have h0 : (0:ℤ) < n := by exact_mod_cast (by rw [← hn]; norm_num : (0:ℝ) < (n:ℝ))
    have h1 : n < 1 := by exact_mod_cast (by rw [← hn]; norm_num : ((n:ℝ)) < 1)
    omega
  have hz : ((-5 : ℝ) : ℂ) ^ (((((1.4:ℝ) - 1) / 1.4 : ℝ)) : ℂ) ≠ 0 := by
    rw [Ne, Complex.cpow_eq_zero_iff]
    rintro ⟨h5, -⟩
    rw [Complex.ofReal_eq_zero] at h5
    norm_num at h5
  simp [calculate_gas_cycle, pyPow, pyMul, pySub, pyDiv, pyGtZero,
    hnotint, hz, show ¬(0:ℝ) < -5 by norm_num, show (-5:ℝ) ≠ 0 by norm_num,
    show (1.4:ℝ) ≠ 0 by norm_num]

/-- C10: at `pressure_ratio = 0` with `k > 1` the compressor-exit power
succeeds — `0.0 ** ((k-1)/k)` is `0.0`, so `t2 = t_amb * 0.0 = 0.0` — but
the turbine step divides `t_max` by that same zero power, and the call fails
with `ZeroDivisionError` instead of returning a non-finite sentinel. -/
theorem zero_pressure_ratio_divzero (tmax tamb k cp : ℝ) (hk : 1 < k) :
    pyPow 0 ((k - 1) / k) = .ok (.real 0) ∧
    pyMul (.real tamb) (.real 0) = .real 0 ∧
    calculate_gas_cycle 0 tmax tamb k cp = .error PyErr.zeroDivisionError := by
  have hk0 : k ≠ 0 := (lt_trans zero_lt_one hk).ne'
  have he : 0 < (k - 1) / k := div_pos (by linarith) (by linarith)
  refine ⟨?_, by simp [pyMul], ?_⟩
  · simp [pyPow, he, lt_irrefl]
  · simp [calculate_gas_cycle, pyPow, pyMul, pySub, pyDiv, hk0, he, lt_irrefl]

/-- Witness for C10 at `(t_max, t_amb, k, cp) = (1350, 298, 1.4, 1.005)`. -/
theorem zero_pressure_ratio_divzero_witness :
    (1:ℝ) < 1.4 ∧
    (pyPow 0 (((1.4:ℝ) - 1) / 1.4) = .ok (.real 0) ∧
     pyMul (.real 298) (.real 0) = .real 0 ∧
     calculate_gas_cycle 0 1350 298 1.4 1.005 = .error PyErr.zeroDivisionError) :=
  ⟨by norm_num, zero_pressure_ratio_divzero 1350 298 1.4 1.005 (by norm_num)⟩

/-- C5 counterexample: at `k = 1` (dashboard defaults otherwise) the
exponent is `(1-1)/1 = 0` — its denominator is `k = 1`, not zero — so far
from surfacing a fatal numeric error, the call returns normally, with every
power equal to 1, zero net work and zero efficiency. -/
theorem k_eq_one_returns_normally :
    calculate_gas_cycle 12 1350 298 1 1.005 = .ok (.real 0, .real 0, .real 298, .real 1350) := by
  have h := calculate_gas_cycle_pos_eq 12 1350 298 1 1.005 (by norm_num) (by norm_num)
  rw [show ((1:ℝ) - 1) / 1 = 0 by norm_num, Real.rpow_zero] at h
  rw [h]
  norm_num

/-- C5 amended: for `k = 1` the exponent `(k-1)/k` evaluates to `0` (its
denominator `k` equals 1, not 0), so no numeric error occurs: for every
positive pressure ratio the call returns normally with `t2 = t_amb`,
`t4 = t_max`, net work 0 and efficiency 0.  (A zero denominator would
require `k = 0`.) -/
theorem k_eq_one_no_error (p tmax tamb cp : ℝ) (hp : 0 < p) :
    calculate_gas_cycle p tmax tamb 1 cp = .ok (.real 0, .real 0, .real tamb, .real tmax) := by
  have h := calculate_gas_cycle_pos_eq p tmax tamb 1 cp hp one_ne_zero
  rw [show ((1:ℝ) - 1) / 1 = 0 by norm_num, Real.rpow_zero] at h
  rw [h]
  simp

/-- Witness for the amended C5 at `(p, t_max, t_amb, cp) = (5, 7, 3, 2)`. -/
theorem k_eq_one_no_error_witness :
    (0:ℝ) < 5 ∧
    calculate_gas_cycle 5 7 3 1 2 = .ok (.real 0, .real 0, .real 3, .real 7) :=
  ⟨by norm_num, k_eq_one_no_error 5 7 3 2 (by norm_num)⟩

/-- Bounds for the scenario-1 temperature ratio:
`2.033 < 12 ^ (2/7) < 2.034`, because `2.033^7 < 144 = (12^(2/7))^7 <
2.034^7`. -/
theorem scenario1_c_bounds : 2.033 < scenario1_c ∧ scenario1_c < 2.034 := by
  have hnn : (0:ℝ) ≤ scenario1_c := Real.rpow_nonneg (by norm_num) _
  have h7 : scenario1_c ^ (7:ℕ) = 144 := by
    rw [scenario1_c, show ((1.4:ℝ) - 1) / 1.4 = 2 / 7 by norm_num,
      ← Real.rpow_natCast ((12:ℝ) ^ ((2:ℝ) / 7)) 7,
      ← Real.rpow_mul (by norm_num : (0:ℝ) ≤ 12),
      show (2:ℝ) / 7 * ((7:ℕ):ℝ) = ((2:ℕ):ℝ) by push_cast; ring,
      Real.rpow_natCast]
    norm_num
  constructor
  · exact lt_of_pow_lt_pow_left₀ 7 hnn (by rw [h7]; norm_num)
  · exact lt_of_pow_lt_pow_left₀ 7 (by norm_num) (by rw [h7]; norm_num)

/-- The call at the spec's scenario-1 inputs (the dashboard defaults)
succeeds and returns exactly the four scenario values. -/
theorem scenario1_eval :
    calculate_gas_cycle 12 1350 298 1.4 1.005 =
      .ok (.real scenario1_wnet, .real scenario1_eff, .real scenario1_t2, .real scenario1_t4) := by
  obtain ⟨hc1, hc2⟩ := scenario1_c_bounds
  have hq : 0 < 1.005 * (1350 - 298 * scenario1_c) := by nlinarith
  simp only [scenario1_wnet, scenario1_eff, scenario1_t2, scenario1_t4] at hq ⊢
  simp only [scenario1_c] at hq ⊢
  rw [calculate_gas_cycle_pos_eq 12 1350 298 1.4 1.005 (by norm_num) (by norm_num), if_pos hq]

/-- Numeric enclosures for the scenario-1 outputs: `t2 ∈ (605, 607)`,
`t4 ∈ (663, 665)`, `w_net ∈ (375, 385)`, `eff ∈ (0, 60)`. -/
theorem scenario1_bounds :
    (605 < scenario1_t2 ∧ scenario1_t2 < 607) ∧
    (663 < scenario1_t4 ∧ scenario1_t4 < 665) ∧
    (375 < scenario1_wnet ∧ scenario1_wnet < 385) ∧
    (0 < scenario1_eff ∧ scenario1_eff < 60) := by
  obtain ⟨hc1, hc2⟩ := scenario1_c_bounds
  have hcpos : (0:ℝ) < scenario1_c := by linarith
  have ht2l : 605.8 < scenario1_t2 := by rw [scenario1_t2]; nlinarith
  have ht2u : scenario1_t2 < 606.14 := by rw [scenario1_t2]; nlinarith
  have ht4l : 663.6 < scenario1_t4 := by
    rw [scenario1_t4, lt_div_iff₀ hcpos]; nlinarith
  have ht4u : scenario1_t4 < 664.1 := by
    rw [scenario1_t4, div_lt_iff₀ hcpos]; nlinarith
  have hwl : 375 < scenario1_wnet := by rw [scenario1_wnet]; nlinarith
  have hwu : scenario1_wnet < 385 := by rw [scenario1_wnet]; nlinarith
  have hQ : 0 < 1.005 * (1350 - scenario1_t2) := by nlinarith
  have hQgt : 740 < 1.005 * (1350 - scenario1_t2) := by nlinarith
  have heffl : 0 < scenario1_eff :=
    mul_pos (div_pos (by linarith) hQ) (by norm_num)
  have heffu : scenario1_eff < 60 := by
    rw [scenario1_eff, div_mul_eq_mul_div, div_lt_iff₀ hQ]
    nlinarith
  exact ⟨⟨by linarith, by linarith⟩, ⟨by linarith, by linarith⟩,
    ⟨hwl, hwu⟩, ⟨heffl, heffu⟩⟩

/-- C7 counterexample: at the spec's scenario-1 inputs
`(12, 1350, 298, 1.4, 1.005)` the source returns
`t2 = 298 · 12^(2/7) > 605 K` — not approximately 597.0 K — `t4 < 665 K` —
not approximately 673.9 K — and a net work above 100 kJ/kg, not a value "in
the tens of kJ/kg". -/
theorem scenario1_not_as_claimed :
    calculate_gas_cycle 12 1350 298 1.4 1.005 =
      .ok (.real scenario1_wnet, .real scenario1_eff, .real scenario1_t2, .real scenario1_t4) ∧
    605 < scenario1_t2 ∧ scenario1_t4 < 665 ∧ 100 < scenario1_wnet := by
  obtain ⟨⟨h2l, h2u⟩, ⟨h4l, h4u⟩, ⟨hwl, hwu⟩, heff⟩ := scenario1_bounds
  exact ⟨scenario1_eval, h2l, h4u, by linarith⟩

/-- C7 amended: at the scenario-1 inputs the call succeeds and returns
`t2 ≈ 606.1 K` (in (605, 607), not ≈ 597.0), `t4 ≈ 663.9 K` (in (663, 665),
not ≈ 673.9), a strictly positive net work in the hundreds of kJ/kg (in
(375, 385), not in the tens), and a thermal efficiency strictly between 0
and 60 percent. -/
theorem scenario1_values :
    calculate_gas_cycle 12 1350 298 1.4 1.005 =
      .ok (.real scenario1_wnet, .real scenario1_eff, .real scenario1_t2, .real scenario1_t4) ∧
    (605 < scenario1_t2 ∧ scenario1_t2 < 607) ∧
    (663 < scenario1_t4 ∧ scenario1_t4 < 665) ∧
    (375 < scenario1_wnet ∧ scenario1_wnet < 385) ∧
    (0 < scenario1_eff ∧ scenario1_eff < 60) :=
  ⟨scenario1_eval, scenario1_bounds⟩
